import Mathlib

/-!
Shallow embedding of the tiered-storage core of `yolocs/rundemo` (src/main.go).

The program composes an optional Redis cache tier and an optional Postgres
durable tier behind two HTTP handlers:

* `handleCowUpsert` (Put): POST /cows/{cow} stores a rendered figure;
* `handleCowSay` (Get): GET /cows/{cow} retrieves it, cache first.

Which pools are non-nil at startup selects the mode (`Config.hasRedis`,
`Config.hasDB` mirror `wcs.redispool != nil` and `wcs.db != nil`).

Tier state is modelled explicitly (`Store`): the cache as an association list
`name -> (value, ttlSeconds)` (the source always sets `EXPIRE key 20`), the
durable table `cows` as an association list `name -> message`.  Failures of
the external tier connections are injected through an environment (`Env`):
each `Option String` field, when `some e`, makes the corresponding physical
tier call fail with message `e`.  The ASCII-art rendering collaborator
(`cowsay.Say` via `saySomething`) is external to the repository and modelled
as an abstract fallible function `Env.render`.

A nil-pointer dereference (the Go code calls `wcs.db.QueryRow` even when
`wcs.db` is nil) is modelled as `HandlerOutcome.crash`: the handler panics
and produces no HTTP response.
-/

set_option autoImplicit false

/-- Association-list lookup keyed by `String`, first binding wins
(mirrors a single-row SQL lookup / a Redis GET against our state model). -/
def lookupKV {α : Type} : List (String × α) → String → Option α
  | [], _ => none
  | (k, v) :: rest, key => if k = key then some v else lookupKV rest key

/-- Association-list upsert: insert or overwrite the binding for `key`
(mirrors `INSERT ... ON CONFLICT (name) DO UPDATE` and Redis `SET`). -/
def insertKV {α : Type} (l : List (String × α)) (key : String) (v : α) :
    List (String × α) :=
  (key, v) :: l.filter (fun p => p.1 != key)

/-- Which tier connections are non-nil (`wcs.redispool`, `wcs.db`). -/
structure Config where
  hasRedis : Bool
  hasDB : Bool
deriving DecidableEq

/-- Errors surfaced by the `database/sql` layer: `sql.ErrNoRows` is the
distinguished no-record outcome; everything else is `other`. -/
inductive DBErr where
  | errNoRows
  | other (msg : String)
deriving DecidableEq

/-- State of the two external tiers: the Redis cache (value and the TTL in
seconds that was set with it) and the Postgres `cows` table. -/
structure Store where
  cache : List (String × (String × Nat))
  db : List (String × String)
deriving DecidableEq

/-- Environment of injected external behaviour for one request: whether each
physical tier call fails (and with which message), and the rendering
collaborator `saySomething`/`cowsay.Say`. -/
structure Env where
  cacheGetErr : Option String
  cacheSetErr : Option String
  dbExecErr : Option String
  dbQueryErr : Option String
  render : String → Except String String

/-- Replace only the injected outcome of the best-effort cache `SET`. -/
def Env.withCacheSet (env : Env) (o : Option String) : Env :=
  ⟨env.cacheGetErr, o, env.dbExecErr, env.dbQueryErr, env.render⟩

/-- Replace only the injected outcome of the durable `SELECT`. -/
def Env.withDbQuery (env : Env) (o : Option String) : Env :=
  ⟨env.cacheGetErr, env.cacheSetErr, env.dbExecErr, o, env.render⟩

/-- `CacheHitHeader` from src/main.go line 27. -/
def CacheHitHeader : String := "x-cow-cache-hit"

/-- An HTTP response as the handlers produce it: status code, the headers the
handler itself sets, and the written body (for `http.Error` the message). -/
structure HttpResponse where
  status : Nat
  headers : List (String × String)
  body : String
deriving DecidableEq

/-- Outcome of running a handler: a response, or a runtime panic
(nil-pointer dereference) that produces no response. -/
inductive HandlerOutcome where
  | response (r : HttpResponse)
  | crash
deriving DecidableEq

/-- `getRedisVal` (src/main.go 194-203): guard on a nil pool, then a Redis
`GET`.  In redigo an absent key surfaces as the error `redis.ErrNil`, so a
miss is an error result, exactly as in the source. -/
def getRedisVal (cfg : Config) (env : Env) (st : Store) (key : String) :
    Except String String :=
  if cfg.hasRedis = false then .error "Redis is not used"
  else
    match env.cacheGetErr with
    | some e => .error e
    | none =>
      match lookupKV st.cache key with
      | some (v, _) => .ok v
      | none => .error "redigo: nil returned"

/-- `setRedisVal` (src/main.go 205-218): guard on a nil pool, then
`SET key val` together with `EXPIRE key 20`. -/
def setRedisVal (cfg : Config) (env : Env) (st : Store) (key val : String) :
    Except String Unit × Store :=
  if cfg.hasRedis = false then (.error "Redis is not used", st)
  else
    match env.cacheSetErr with
    | some e => (.error e, st)
    | none => (.ok (), ⟨insertKV st.cache key (val, 20), st.db⟩)

/-- `passThroughSaveVal` (src/main.go 220-233): durable upsert first; on its
failure return immediately; otherwise a best-effort cache write whose failure
is logged and swallowed.  `none` models the nil-pointer dereference of
`wcs.db.Exec` if it were reached with a nil db (callers guard against it). -/
def passThroughSaveVal (cfg : Config) (env : Env) (st : Store)
    (key val : String) : Option (Except String Unit × Store) :=
  if cfg.hasDB = false then none
  else
    match env.dbExecErr with
    | some e => some (.error e, st)
    | none =>
      let st1 : Store := ⟨st.cache, insertKV st.db key val⟩
      let r2 := setRedisVal cfg env st1 key val
      some (.ok (), r2.2)

/-- `passThroughGetVal` (src/main.go 235-245): durable `SELECT ... WHERE
name = $1`; `sql.ErrNoRows` when no record; on a row, a best-effort cache
repopulation whose failure is logged and swallowed.  `none` models the
nil-pointer dereference of `wcs.db.QueryRow` when `wcs.db` is nil. -/
def passThroughGetVal (cfg : Config) (env : Env) (st : Store) (key : String) :
    Option (Except DBErr String × Store) :=
  if cfg.hasDB = false then none
  else
    match env.dbQueryErr with
    | some e => some (.error (.other e), st)
    | none =>
      match lookupKV st.db key with
      | none => some (.error .errNoRows, st)
      | some v =>
        let r2 := setRedisVal cfg env st key v
        some (.ok v, r2.2)

/-- The text of the Ephemeral-mode placeholder (src/main.go 156). -/
def ephemeralPlaceholder (name : String) : String :=
  "Hi, I\x27m " ++ name ++ ". Temporary. Don\x27t count on me~"

/-- The cache step of `handleCowSay` (src/main.go 166-178): only when the
pool exists; a hit is a nil error together with a non-empty value. -/
def cacheHitValue (cfg : Config) (env : Env) (st : Store) (cow : String) :
    Option String :=
  if cfg.hasRedis = true then
    match getRedisVal cfg env st cow with
    | .ok t => if t = "" then none else some t
    | .error _ => none
  else none

/-- `handleCowSay` (src/main.go 150-192), the Get operation: Ephemeral mode
synthesizes a placeholder; otherwise cache first (hit sets the
`x-cow-cache-hit: true` header), then pass-through to the durable tier with
`sql.ErrNoRows` mapped to 404 and any other error to 500. -/
def handleCowSay (cfg : Config) (env : Env) (st : Store) (cow : String) :
    HandlerOutcome × Store :=
  if cfg.hasRedis = false ∧ cfg.hasDB = false then
    match env.render (ephemeralPlaceholder cow) with
    | .error e => (.response ⟨500, [], e⟩, st)
    | .ok t => (.response ⟨200, [], t⟩, st)
  else
    match cacheHitValue cfg env st cow with
    | some t => (.response ⟨200, [(CacheHitHeader, "true")], t⟩, st)
    | none =>
      match passThroughGetVal cfg env st cow with
      | none => (.crash, st)
      | some (.error .errNoRows, st2) =>
        (.response ⟨404, [], "No figure found!"⟩, st2)
      | some (.error (.other m), st2) =>
        (.response ⟨500, [], "DB error: " ++ m⟩, st2)
      | some (.ok t, st2) => (.response ⟨200, [], t⟩, st2)

/-- `handleCowUpsert` (src/main.go 112-148), the Put operation: with no tier
configured fail with the no-storage message; render the body; with no db save
to the cache authoritatively; otherwise pass-through save (durable first,
best-effort cache write-behind). -/
def handleCowUpsert (cfg : Config) (env : Env) (st : Store)
    (cow body : String) : HandlerOutcome × Store :=
  if cfg.hasRedis = false ∧ cfg.hasDB = false then
    (.response ⟨500, [],
      "No persistent store available to store what the cow is going to say"⟩,
     st)
  else
    match env.render body with
    | .error e => (.response ⟨500, [], "Failed to generate figure: " ++ e⟩, st)
    | .ok say =>
      if cfg.hasDB = false then
        match setRedisVal cfg env st cow say with
        | (.error e, st2) =>
          (.response ⟨500, [], "Failed to save to cache: " ++ e⟩, st2)
        | (.ok _, st2) => (.response ⟨201, [], ""⟩, st2)
      else
        match passThroughSaveVal cfg env st cow say with
        | none => (.crash, st)
        | some (.error e, st2) =>
          (.response ⟨500, [], "Failed to save to db: " ++ e⟩, st2)
        | some (.ok _, st2) => (.response ⟨201, [], ""⟩, st2)

/-- Ephemeral mode: neither tier configured. -/
def ephemeralCfg : Config := ⟨false, false⟩

/-- Cache-only mode: only the Redis pool configured. -/
def cacheOnlyCfg : Config := ⟨true, false⟩

/-- Full mode: both tiers configured. -/
def fullCfg : Config := ⟨true, true⟩

/-- Durable-only configuration: only the database configured. -/
def dbOnlyCfg : Config := ⟨false, true⟩

/-- An environment in which every tier call succeeds and rendering is the
identity figure. -/
def noFailEnv : Env := ⟨none, none, none, none, fun s => .ok s⟩

/-- The empty store: cold cache, empty `cows` table. -/
def emptyStore : Store := ⟨[], []⟩

/-! ## Claim theorems -/

/-- C1: the spec says that in Cache-only mode a `Get` that misses the cache
(or hits a cache read error) fails with `NotFound`, and in particular a `Get`
for a name never written returns `NotFound`.  The code instead falls through
to `passThroughGetVal`, which calls `QueryRow` on the nil `*sql.DB` handle
and panics with a nil-pointer dereference: a `Get` in Cache-only mode for a
name never written crashes and produces no HTTP response at all.  This
contradicts both the spec and the repository README ("After that, it will
return 404"), so the code, not the claim, is at fault. -/
theorem cacheOnly_get_never_written_crashes :
    handleCowSay cacheOnlyCfg noFailEnv emptyStore "bessie" =
      (.crash, emptyStore) := rfl

/-- C2: in Full mode, if the durable-tier write inside `Put` fails then the
operation fails (HTTP 500, "Failed to save to db: ..."), no cache write is
attempted, and the whole store — in particular the cache tier — is returned
unchanged. -/
theorem full_put_durable_failure_leaves_cache (env : Env) (st : Store)
    (cow body say e : String)
    (hr : env.render body = .ok say) (hd : env.dbExecErr = some e) :
    handleCowUpsert fullCfg env st cow body =
      (.response ⟨500, [], "Failed to save to db: " ++ e⟩, st) := by
  simp [handleCowUpsert, fullCfg, passThroughSaveVal, hr, hd]

/-- Environment in which only the durable `INSERT` fails. -/
def dbFailEnv : Env := ⟨none, none, some "boom", none, fun s => .ok s⟩

/-- Witness for C2 at a concrete input. -/
theorem full_put_durable_failure_witness :
    handleCowUpsert fullCfg dbFailEnv emptyStore "alice" "hello" =
      (.response ⟨500, [], "Failed to save to db: boom"⟩, emptyStore) :=
  full_put_durable_failure_leaves_cache dbFailEnv emptyStore "alice" "hello"
    "hello" "boom" rfl rfl

/-- C3: the two best-effort cache writes — the write-behind after a
successful durable write inside `Put` and the repopulation after a
successful durable read inside `Get` — never propagate their failure: for
any injected outcomes `o₁`, `o₂` of the cache `SET`, the error/value results
of `passThroughSaveVal` and `passThroughGetVal` and the HTTP responses of
the enclosing `Put` and `Get` are identical. -/
theorem bestEffort_cache_failures_never_propagate (env : Env) (st : Store)
    (cow body : String) (o₁ o₂ : Option String) :
    ((passThroughSaveVal fullCfg (env.withCacheSet o₁) st cow body).map
        (fun p => p.1) =
     (passThroughSaveVal fullCfg (env.withCacheSet o₂) st cow body).map
        (fun p => p.1)) ∧
    ((passThroughGetVal fullCfg (env.withCacheSet o₁) st cow).map
        (fun p => p.1) =
     (passThroughGetVal fullCfg (env.withCacheSet o₂) st cow).map
        (fun p => p.1)) ∧
    ((handleCowUpsert fullCfg (env.withCacheSet o₁) st cow body).1 =
     (handleCowUpsert fullCfg (env.withCacheSet o₂) st cow body).1) ∧
    ((handleCowSay fullCfg (env.withCacheSet o₁) st cow).1 =
     (handleCowSay fullCfg (env.withCacheSet o₂) st cow).1) := by
  obtain ⟨cg, cs, de, dq, r⟩ := env
  simp only [Env.withCacheSet]
  refine ⟨?_, ?_, ?_, ?_⟩
  · cases de <;> rfl
  · cases dq <;> cases hl : lookupKV st.db cow <;>
      simp [passThroughGetVal, fullCfg, hl, setRedisVal]
  · cases hr : r body <;> cases de <;>
      simp [handleCowUpsert, fullCfg, hr, passThroughSaveVal, setRedisVal]
  · have hcv : cacheHitValue (⟨true, true⟩ : Config)
        (⟨cg, o₂, de, dq, r⟩ : Env) st cow
        = cacheHitValue (⟨true, true⟩ : Config)
        (⟨cg, o₁, de, dq, r⟩ : Env) st cow := rfl
    simp only [handleCowSay, fullCfg, hcv]
    cases hc : cacheHitValue (⟨true, true⟩ : Config)
        (⟨cg, o₁, de, dq, r⟩ : Env) st cow <;>
      cases dq <;> cases hl : lookupKV st.db cow <;>
      simp [passThroughGetVal, hl, setRedisVal, hc]

/-- Store used by the C4 counterexample: a warm cache entry for alice. -/
def aliceHitStore : Store := ⟨[("alice", ("moo", 20))], []⟩

/-- C4 counterexample: the claim names the cache-hit response header
`x-cache-hit`, but a Full-mode cache hit sets only the header
`x-cow-cache-hit` (constant `CacheHitHeader`, src/main.go line 27): the
name `x-cache-hit` never appears in a response. -/
theorem cacheHit_header_not_xCacheHit :
    (handleCowSay fullCfg noFailEnv aliceHitStore "alice").1 =
      .response ⟨200, [(CacheHitHeader, "true")], "moo"⟩ ∧
    CacheHitHeader ≠ "x-cache-hit" :=
  ⟨rfl, by decide⟩

/-- C4 as amended: in Full mode, when the cache read returns a non-empty
value with no error, `Get` answers 200 with that value and the header
`x-cow-cache-hit: true` (not `x-cache-hit`), leaves the store untouched, and
does not consult the Durable Tier at all: the result is the same for every
durable-tier state `db2` and every injected durable-read outcome `o`.
Moreover the hit header is set only on a cache hit: any response carrying a
header is the cache-hit response for the value the cache returned. -/
theorem full_cache_hit_no_durable_touch (env : Env) (st : Store)
    (name t : String)
    (hget : getRedisVal fullCfg env st name = .ok t) (hne : t ≠ "")
    (db2 : List (String × String)) (o : Option String) :
    (handleCowSay fullCfg (env.withDbQuery o) ⟨st.cache, db2⟩ name =
       (.response ⟨200, [(CacheHitHeader, "true")], t⟩, ⟨st.cache, db2⟩)) ∧
    CacheHitHeader = "x-cow-cache-hit" ∧
    (∀ (env2 : Env) (st2 : Store) (name2 : String) (resp : HttpResponse)
        (st3 : Store),
       handleCowSay fullCfg env2 st2 name2 = (.response resp, st3) →
       resp.headers ≠ [] →
       resp.headers = [(CacheHitHeader, "true")] ∧
         cacheHitValue fullCfg env2 st2 name2 = some resp.body) := by
  refine ⟨?_, rfl, ?_⟩
  · have hget2 : getRedisVal (⟨true, true⟩ : Config) (env.withDbQuery o)
        (⟨st.cache, db2⟩ : Store) name = Except.ok t := hget
    simp [handleCowSay, fullCfg, cacheHitValue, hget2, hne]
  · intro env2 st2 name2 resp st3 heq hne2
    unfold handleCowSay at heq
    simp only [fullCfg] at heq
    rw [if_neg (by simp)] at heq
    cases hc : cacheHitValue fullCfg env2 st2 name2 with
    | some v =>
      simp only [fullCfg] at hc
      rw [hc] at heq
      cases heq
      refine ⟨rfl, ?_⟩
      simp only [fullCfg]
    | none =>
      simp only [fullCfg] at hc
      rw [hc] at heq
      cases hp : passThroughGetVal ⟨true, true⟩ env2 st2 name2 with
      | none => rw [hp] at heq; cases heq
      | some pr =>
        rw [hp] at heq
        obtain ⟨r2, st4⟩ := pr
        cases r2 with
        | ok v => cases heq; simp at hne2
        | error e =>
          cases e with
          | errNoRows => cases heq; simp at hne2
          | other m => cases heq; simp at hne2

/-- Witness for C4 at a concrete input: a warm cache, a durable tier that
would error if consulted, and an unrelated durable record. -/
theorem full_cache_hit_no_durable_touch_witness :
    handleCowSay fullCfg (noFailEnv.withDbQuery (some "db down"))
        (⟨[("alice", ("moo", 20))], [("x", "y")]⟩ : Store) "alice" =
      (.response ⟨200, [(CacheHitHeader, "true")], "moo"⟩,
       ⟨[("alice", ("moo", 20))], [("x", "y")]⟩) :=
  (full_cache_hit_no_durable_touch noFailEnv aliceHitStore "alice" "moo" rfl
    (by decide) [("x", "y")] (some "db down")).1

/-- C5: in Full mode, when the cache step yields no hit (miss or cache read
error, `cacheHitValue = none`) but the durable tier has a record, `Get`
returns that value with no cache-hit header (`wasCacheHit = false`) and
repopulates the cache with the value under TTL 20 seconds. -/
theorem full_get_durable_hit_repopulates (env : Env) (st : Store)
    (name v : String)
    (hmiss : cacheHitValue fullCfg env st name = none)
    (hdq : env.dbQueryErr = none) (hcs : env.cacheSetErr = none)
    (hdb : lookupKV st.db name = some v) :
    handleCowSay fullCfg env st name =
      (.response ⟨200, [], v⟩, ⟨insertKV st.cache name (v, 20), st.db⟩) := by
  have hm : cacheHitValue (⟨true, true⟩ : Config) env st name = none := hmiss
  simp [handleCowSay, fullCfg, hm, passThroughGetVal, hdq, hdb, setRedisVal,
    hcs]

/-- Witness for C5 at a concrete input. -/
theorem full_get_durable_hit_repopulates_witness :
    handleCowSay fullCfg noFailEnv (⟨[], [("alice", "hello")]⟩ : Store)
        "alice" =
      (.response ⟨200, [], "hello"⟩,
       ⟨[("alice", ("hello", 20))], [("alice", "hello")]⟩) :=
  full_get_durable_hit_repopulates noFailEnv ⟨[], [("alice", "hello")]⟩
    "alice" "hello" rfl rfl rfl rfl

/-- C6: in Full mode, after a cache miss, a durable read reporting no record
(`sql.ErrNoRows`) makes `Get` fail with NotFound (404, "No figure found!"),
while any other durable-read error makes it fail with a durable-read failure
(500, "DB error: ..."), an outcome distinct from NotFound. -/
theorem full_get_notFound_vs_durable_error (env : Env) (st : Store)
    (name : String)
    (hmiss : cacheHitValue fullCfg env st name = none) :
    (env.dbQueryErr = none → lookupKV st.db name = none →
       (handleCowSay fullCfg env st name).1 =
         .response ⟨404, [], "No figure found!"⟩) ∧
    (∀ e, env.dbQueryErr = some e →
       (handleCowSay fullCfg env st name).1 =
         .response ⟨500, [], "DB error: " ++ e⟩ ∧
       (handleCowSay fullCfg env st name).1 ≠
         .response ⟨404, [], "No figure found!"⟩) := by
  have hm : cacheHitValue (⟨true, true⟩ : Config) env st name = none := hmiss
  constructor
  · intro hdq hdb
    simp [handleCowSay, fullCfg, hm, passThroughGetVal, hdq, hdb]
  · intro e hdq
    constructor
    · simp [handleCowSay, fullCfg, hm, passThroughGetVal, hdq]
    · simp [handleCowSay, fullCfg, hm, passThroughGetVal, hdq]

/-- Environment in which only the durable `SELECT` fails. -/
def dbErrEnv : Env := ⟨none, none, none, some "boom", fun s => .ok s⟩

/-- Witness for C6 at concrete inputs: a durable miss and a durable error. -/
theorem full_get_notFound_vs_durable_error_witness :
    (handleCowSay fullCfg noFailEnv emptyStore "bob").1 =
      .response ⟨404, [], "No figure found!"⟩ ∧
    (handleCowSay fullCfg dbErrEnv emptyStore "bob").1 =
      .response ⟨500, [], "DB error: boom"⟩ :=
  ⟨(full_get_notFound_vs_durable_error noFailEnv emptyStore "bob" rfl).1
      rfl rfl,
   ((full_get_notFound_vs_durable_error dbErrEnv emptyStore "bob" rfl).2
      "boom" rfl).1⟩

/-- Put-side environment of the C7 counterexample: the durable write
succeeds but the best-effort cache write-behind fails. -/
def staleEnvPut : Env := ⟨none, some "cache down", none, none, fun s => .ok s⟩

/-- Prior state of the C7 counterexample: an unexpired cache entry and the
matching durable record from an earlier fully-successful write. -/
def staleStore : Store := ⟨[("alice", ("old", 20))], [("alice", "old")]⟩

/-- C7 counterexample: read-your-write does not hold as stated.  In Full
mode, `Put("alice", "new")` succeeds (201) even though its best-effort cache
write-behind failed; the immediately following `Get("alice")` — with every
tier call succeeding — serves the stale unexpired cache entry "old", not the
value "new" that the `Put` stored durably. -/
theorem putThenGet_returns_stale_cache_value :
    (handleCowUpsert fullCfg staleEnvPut staleStore "alice" "new").1 =
      .response ⟨201, [], ""⟩ ∧
    (handleCowSay fullCfg noFailEnv
        (handleCowUpsert fullCfg staleEnvPut staleStore "alice" "new").2
        "alice").1 =
      .response ⟨200, [(CacheHitHeader, "true")], "old"⟩ ∧
    "old" ≠ "new" :=
  ⟨rfl, rfl, by decide⟩

/-- C7 as amended: `Put(name, m)` followed immediately by `Get(name)` by the
same sequential caller returns the stored message, provided the tier calls
involved succeed — in Cache-only mode the put's cache write and the get's
cache read succeed and the stored message is non-empty; in Full mode the
durable write, the cache write-behind and the durable read succeed (if the
write-behind fails, the get may serve a stale unexpired cache entry).  In
Ephemeral mode `Put` always fails and `Get` returns the rendering of a
synthesized placeholder that contains `name`. -/
theorem putThenGet_read_your_write (envP envG : Env) (st : Store)
    (name body say : String) (hr : envP.render body = .ok say) :
    (envP.cacheSetErr = none → envG.cacheGetErr = none → say ≠ "" →
       handleCowUpsert cacheOnlyCfg envP st name body =
         (.response ⟨201, [], ""⟩,
          ⟨insertKV st.cache name (say, 20), st.db⟩) ∧
       (handleCowSay cacheOnlyCfg envG
           (⟨insertKV st.cache name (say, 20), st.db⟩ : Store) name).1 =
         .response ⟨200, [(CacheHitHeader, "true")], say⟩) ∧
    (envP.dbExecErr = none → envP.cacheSetErr = none →
     envG.dbQueryErr = none →
       (handleCowUpsert fullCfg envP st name body).1 =
         .response ⟨201, [], ""⟩ ∧
       ∃ hdrs,
         (handleCowSay fullCfg envG
             (handleCowUpsert fullCfg envP st name body).2 name).1 =
           .response ⟨200, hdrs, say⟩) ∧
    ((handleCowUpsert ephemeralCfg envP st name body).1 =
       .response ⟨500, [],
         "No persistent store available to store what the cow is going to say"⟩ ∧
     (∀ t, envG.render (ephemeralPlaceholder name) = .ok t →
        (handleCowSay ephemeralCfg envG st name).1 =
          .response ⟨200, [], t⟩) ∧
     (∃ p q, ephemeralPlaceholder name = p ++ name ++ q)) := by
  refine ⟨?_, ?_, rfl, ?_, "Hi, I\x27m ",
    ". Temporary. Don\x27t count on me~", rfl⟩
  · intro hcsP hcgG hsay
    constructor
    · simp [handleCowUpsert, cacheOnlyCfg, hr, setRedisVal, hcsP]
    · simp [handleCowSay, cacheOnlyCfg, cacheHitValue, getRedisVal, hcgG,
        lookupKV, insertKV, hsay]
  · intro hdeP hcsP hdqG
    constructor
    · simp [handleCowUpsert, fullCfg, hr, passThroughSaveVal, hdeP,
        setRedisVal, hcsP]
    · have hput : (handleCowUpsert fullCfg envP st name body).2 =
          ⟨insertKV st.cache name (say, 20), insertKV st.db name say⟩ := by
        simp [handleCowUpsert, fullCfg, hr, passThroughSaveVal, hdeP,
          setRedisVal, hcsP]
      rw [hput]
      cases hcg : envG.cacheGetErr with
      | some e =>
        refine ⟨[], ?_⟩
        simp [handleCowSay, fullCfg, cacheHitValue, getRedisVal, hcg,
          passThroughGetVal, hdqG, lookupKV, insertKV]
      | none =>
        by_cases hsay : say = ""
        · refine ⟨[], ?_⟩
          simp [handleCowSay, fullCfg, cacheHitValue, getRedisVal, hcg,
            passThroughGetVal, hdqG, lookupKV, insertKV, hsay]
        · refine ⟨[(CacheHitHeader, "true")], ?_⟩
          simp [handleCowSay, fullCfg, cacheHitValue, getRedisVal, hcg,
            lookupKV, insertKV, hsay]
  · intro t ht
    simp [handleCowSay, ephemeralCfg, ht]

/-- Witness for C7 at concrete inputs in all three modes. -/
theorem putThenGet_read_your_write_witness :
    (handleCowSay cacheOnlyCfg noFailEnv
        (⟨[("alice", ("hello", 20))], []⟩ : Store) "alice").1 =
      .response ⟨200, [(CacheHitHeader, "true")], "hello"⟩ ∧
    (∃ hdrs,
       (handleCowSay fullCfg noFailEnv
           (handleCowUpsert fullCfg noFailEnv emptyStore "alice" "hello").2
           "alice").1 =
         .response ⟨200, hdrs, "hello"⟩) ∧
    (handleCowUpsert ephemeralCfg noFailEnv emptyStore "alice" "hello").1 =
      .response ⟨500, [],
        "No persistent store available to store what the cow is going to say"⟩ :=
  ⟨((putThenGet_read_your_write noFailEnv noFailEnv emptyStore "alice"
      "hello" "hello" rfl).1 rfl rfl (by decide)).2,
   ((putThenGet_read_your_write noFailEnv noFailEnv emptyStore "alice"
      "hello" "hello" rfl).2.1 rfl rfl rfl).2,
   (putThenGet_read_your_write noFailEnv noFailEnv emptyStore "alice"
      "hello" "hello" rfl).2.2.1⟩

/-- C8: in Ephemeral mode `Get` leaves the store untouched and answers with
the rendering of the synthesized placeholder built from `name` — 200 with no
cache-hit header (`wasCacheHit = false`) when the rendering collaborator
succeeds; its only failure path is that collaborator, never `NotFound` and
never a storage error.  The placeholder contains `name` verbatim. -/
theorem ephemeral_get_placeholder (env : Env) (st : Store) (name : String) :
    (handleCowSay ephemeralCfg env st name).2 = st ∧
    (handleCowSay ephemeralCfg env st name).1 =
      (match env.render (ephemeralPlaceholder name) with
       | .ok t => .response ⟨200, [], t⟩
       | .error e => .response ⟨500, [], e⟩) ∧
    (∃ p q, ephemeralPlaceholder name = p ++ name ++ q) := by
  refine ⟨?_, ?_, "Hi, I\x27m ", ". Temporary. Don\x27t count on me~", rfl⟩
  · cases h : env.render (ephemeralPlaceholder name) <;>
      simp [handleCowSay, ephemeralCfg, h]
  · cases h : env.render (ephemeralPlaceholder name) <;>
      simp [handleCowSay, ephemeralCfg, h]

/-- C9: in Ephemeral mode `Put` always fails with the no-storage-available
error (HTTP 500) before reading the body or touching anything, and the store
is returned unchanged: no side effect on any storage. -/
theorem ephemeral_put_fails_no_side_effect (env : Env) (st : Store)
    (cow body : String) :
    handleCowUpsert ephemeralCfg env st cow body =
      (.response ⟨500, [],
        "No persistent store available to store what the cow is going to say"⟩,
       st) := rfl

/-- C10: with only the durable tier configured, both operations work: every
cache `SET` fails with "Redis is not used" and is swallowed, so `Put`
upserts the durable record and succeeds with the cache untouched, and `Get`
skips the cache, returning the durable value with no cache-hit header and
the store unchanged, 404 on a durable miss and a 500 "DB error" on any other
durable failure. -/
theorem dbOnly_put_get (env : Env) (st : Store) (name body say v : String)
    (hr : env.render body = .ok say) :
    (∀ (st2 : Store) (k w : String),
       setRedisVal dbOnlyCfg env st2 k w =
         (.error "Redis is not used", st2)) ∧
    (env.dbExecErr = none →
       handleCowUpsert dbOnlyCfg env st name body =
         (.response ⟨201, [], ""⟩, ⟨st.cache, insertKV st.db name say⟩)) ∧
    (env.dbQueryErr = none → lookupKV st.db name = some v →
       handleCowSay dbOnlyCfg env st name = (.response ⟨200, [], v⟩, st)) ∧
    (env.dbQueryErr = none → lookupKV st.db name = none →
       (handleCowSay dbOnlyCfg env st name).1 =
         .response ⟨404, [], "No figure found!"⟩) ∧
    (∀ e, env.dbQueryErr = some e →
       (handleCowSay dbOnlyCfg env st name).1 =
         .response ⟨500, [], "DB error: " ++ e⟩) := by
  refine ⟨?_, ?_, ?_, ?_, ?_⟩
  · intro st2 k w
    simp [setRedisVal, dbOnlyCfg]
  · intro hde
    simp [handleCowUpsert, dbOnlyCfg, hr, passThroughSaveVal, hde,
      setRedisVal]
  · intro hdq hdb
    simp [handleCowSay, dbOnlyCfg, cacheHitValue, passThroughGetVal, hdq,
      hdb, setRedisVal]
  · intro hdq hdb
    simp [handleCowSay, dbOnlyCfg, cacheHitValue, passThroughGetVal, hdq,
      hdb]
  · intro e hdq
    simp [handleCowSay, dbOnlyCfg, cacheHitValue, passThroughGetVal, hdq]

/-- Witness for C10 at concrete inputs. -/
theorem dbOnly_put_get_witness :
    handleCowUpsert dbOnlyCfg noFailEnv emptyStore "alice" "hello" =
      (.response ⟨201, [], ""⟩, ⟨[], [("alice", "hello")]⟩) ∧
    handleCowSay dbOnlyCfg noFailEnv (⟨[], [("alice", "hello")]⟩ : Store)
        "alice" =
      (.response ⟨200, [], "hello"⟩, ⟨[], [("alice", "hello")]⟩) :=
  ⟨(dbOnly_put_get noFailEnv emptyStore "alice" "hello" "hello" "hello"
      rfl).2.1 rfl,
   (dbOnly_put_get noFailEnv (⟨[], [("alice", "hello")]⟩ : Store) "alice"
      "hello" "hello" "hello" rfl).2.2.1 rfl rfl⟩
